import Mathlib

/-!
Shallow embedding of the Vehicle Monitoring System operator console
(React frontend: `App`, `api`, `LiveMonitor`, `CamSettings`,
`ViolationArchive`).  Each definition mirrors one source function or one
piece of component state; the theorems settle the frozen claims about the
dashboard session and real-time state controller.
-/

namespace VMS

/-! ### Roles, views and the capability table (App.jsx: `navItems`, `filteredNav`) -/

/-- Authorization role, `'admin'` or `'operator'` in `App`. -/
inductive Role
  | admin
  | operator
deriving DecidableEq, Repr

/-- View identifiers, the `id` fields of `navItems`: `'live'`, `'archive'`, `'settings'`. -/
inductive ViewId
  | live
  | archive
  | settings
deriving DecidableEq, Repr

/-- One entry of the static capability table `navItems`. -/
structure NavItem where
  id : ViewId
  roles : List Role
deriving DecidableEq, Repr

/-- The static capability table, in source order (App.jsx `navItems`). -/
def navItems : List NavItem :=
  [ ⟨ViewId.live, [Role.admin, Role.operator]⟩,
    ⟨ViewId.archive, [Role.admin, Role.operator]⟩,
    ⟨ViewId.settings, [Role.admin]⟩ ]

/-- `filteredNav = navItems.filter(item => item.roles.includes(role))`. -/
def filteredNav (role : Role) : List NavItem :=
  navItems.filter (fun item => item.roles.contains role)

/-- The view identifiers visible to a role, in table order. -/
def visibleViews (role : Role) : List ViewId :=
  (filteredNav role).map (fun item => item.id)

/-! ### Role derivation (App.jsx `onAuthStateChanged` handler)

`currentUser.email?.toLowerCase().includes('admin') ? 'admin' : 'operator'`.
-/

/-- List-of-characters test that `needle` starts `hay` (character-wise `==`). -/
def begWith : List Char → List Char → Bool
  | [], _ => true
  | _ :: _, [] => false
  | a :: as, b :: bs => a == b && begWith as bs

/-- `hay` contains `needle` as a contiguous run, JavaScript `String.includes`. -/
def containsSeq (needle : List Char) : List Char → Bool
  | [] => needle.isEmpty
  | c :: cs => begWith needle (c :: cs) || containsSeq needle cs

/-- Lower-cased character view of a string, JavaScript `toLowerCase` on the
identifiers used here (ASCII). -/
def lowerAscii (s : String) : List Char :=
  s.data.map Char.toLower

/-- The configured admin marker looked for in the principal identifier. -/
def adminMarker : String := "admin"

/-- Role derivation from the optional email of the authenticated principal:
`email?.toLowerCase().includes('admin') ? 'admin' : 'operator'`; a missing
email is falsy and yields operator. -/
def deriveRole : Option String → Role
  | some e => if containsSeq adminMarker.data (lowerAscii e) then Role.admin else Role.operator
  | none => Role.operator

/-! ### App component state (App.jsx `useState` hooks and auth handler) -/

/-- External principal delivered by the identity provider: an optional email
and the id token obtained from `getIdToken()`. -/
structure Principal where
  email : Option String
  idToken : String
deriving DecidableEq, Repr

/-- A recent-violation record as delivered in `stats.recent_violations`
(fields `type`, `tracker_id`, `timestamp`). -/
structure RecentViolation where
  vtype : String
  tracker_id : Nat
  timestamp : String
deriving DecidableEq, Repr

/-- The `stats` state: counters, recent violations and the optional
`scene_type` label. -/
structure Stats where
  in_count : Nat
  out_count : Nat
  total_violations : Nat
  recent_violations : List RecentViolation
  scene_type : Option String
deriving DecidableEq, Repr

/-- Initial `stats` state:
`{ in_count: 0, out_count: 0, total_violations: 0, recent_violations: [] }`. -/
def initialStats : Stats := ⟨0, 0, 0, [], none⟩

/-- The `App` component state together with the process-wide api token
installed by `setAuthToken` (api.js axios default header). -/
structure AppState where
  user : Option Principal
  role : Role
  loading : Bool
  activeTab : ViewId
  stats : Stats
  apiToken : Option String
deriving DecidableEq, Repr

/-- Initial `App` state: no user, role operator, loading, tab `'live'`. -/
def initApp : AppState :=
  ⟨none, Role.operator, true, ViewId.live, initialStats, none⟩

/-- The `onAuthStateChanged` callback: with a principal, install the token,
set the user, derive the role; without one, clear the token, clear the user,
reset the role to operator.  Either way `loading` becomes false and —
notably — `activeTab` is left untouched. -/
def authStateChanged (s : AppState) (p : Option Principal) : AppState :=
  match p with
  | some u =>
      { s with
        apiToken := some u.idToken,
        user := some u,
        role := deriveRole u.email,
        loading := false }
  | none =>
      { s with
        apiToken := none,
        user := none,
        role := Role.operator,
        loading := false }

/-- Clicking a sidebar button: only buttons of `filteredNav` are rendered, so
a view outside the visible set cannot be selected (a no-op). -/
def selectTab (s : AppState) (v : ViewId) : AppState :=
  if (filteredNav s.role).any (fun item => item.id == v) then
    { s with activeTab := v }
  else s

/-- What the main view area renders: nothing while loading or logged out,
otherwise exactly the component matching `activeTab` (the render guards are
`activeTab === 'live'` etc., with no role check). -/
def renderedView (s : AppState) : Option ViewId :=
  if s.loading then none
  else if s.user.isNone then none
  else some s.activeTab

/-- Admin principal of the sign-in scenario. -/
def adminPrin : Principal := ⟨some "admin@co.com", "tokA"⟩

/-- Operator principal of the sign-in scenario. -/
def opPrin : Principal := ⟨some "op@co.com", "tokB"⟩

/-- Admin logged in from the initial state. -/
def cexS1 : AppState := authStateChanged initApp (some adminPrin)

/-- The admin has selected the settings tab. -/
def cexS2 : AppState := selectTab cexS1 ViewId.settings

/-- Re-login as the operator principal while the settings tab is active. -/
def cexS3 : AppState := authStateChanged cexS2 (some opPrin)

/-! ### Polling synchronizer (App.jsx polling `useEffect` and api.js `fetchStats`)

The effect installs `setInterval(async () => { try { const data = await
fetchStats(); setStats(data) } catch (e) { console.error(...) } }, 1000)`
while a user is present, and its cleanup runs `clearInterval`.  The model is
an event machine: a `tick` is the interval firing (it issues a fetch), a
`resolve` is an issued fetch's promise settling (success runs `setStats`,
failure runs `console.error`), and `teardown` is the cleanup.  Nothing in
the source guards `setStats` by liveness, so a resolve applies even after
`teardown` — only ticks stop. -/

/-- Outcome of one `fetchStats()` round trip. -/
inductive FetchOutcome
  | ok (d : Stats)
  | err
deriving DecidableEq, Repr

/-- Scheduler-level events of the polling loop. -/
inductive PollEv
  | tick
  | resolve (rid : Nat) (outcome : FetchOutcome)
  | teardown
deriving DecidableEq, Repr

/-- The fixed interval period passed to `setInterval`. -/
def pollIntervalMs : Nat := 1000

/-- Polling loop state: whether the interval is installed, the next request
id, the requests in flight, the current `stats` state, the log of values
passed to `setStats` (in application order) and the count of
`console.error` logs. -/
structure PollState where
  active : Bool
  nextRid : Nat
  inflight : List Nat
  stats : Stats
  applied : List Stats
  errorsLogged : Nat
deriving DecidableEq, Repr

/-- One scheduler event.  A tick issues a fetch only while the interval is
installed; a resolve of an in-flight request either applies the whole
response via `setStats` (independently of `active` — the code has no such
guard) or logs the error; teardown is `clearInterval`. -/
def pollStep (s : PollState) (e : PollEv) : PollState :=
  match e with
  | .tick =>
      if s.active then
        { s with inflight := s.inflight ++ [s.nextRid], nextRid := s.nextRid + 1 }
      else s
  | .resolve rid outcome =>
      if s.inflight.contains rid then
        match outcome with
        | .ok d =>
            { s with inflight := s.inflight.erase rid, stats := d,
                     applied := s.applied ++ [d] }
        | .err =>
            { s with inflight := s.inflight.erase rid,
                     errorsLogged := s.errorsLogged + 1 }
      else s
  | .teardown => { s with active := false }

/-- Run the polling machine over a sequence of scheduler events. -/
def runPoll (s : PollState) (tr : List PollEv) : PollState :=
  tr.foldl pollStep s

/-- Loop state right after the effect runs for an authenticated user:
interval installed, nothing in flight, initial stats. -/
def pollInit : PollState := ⟨true, 0, [], initialStats, [], 0⟩

/-- The stats payload of the spec's poll scenario. -/
def rvDemo : RecentViolation := ⟨"speeding", 42, "2024-01-01_12:00:00"⟩

/-- A concrete successful `/stats` response. -/
def demoStats : Stats := ⟨5, 3, 1, [rvDemo], none⟩

/-- The loop after one fetch was issued and the view was torn down with that
fetch still in flight. -/
def pollMid : PollState := runPoll pollInit [PollEv.tick, PollEv.teardown]

/-! ### Upload task (CamSettings: `isUploading`, `uploadStatus`, `onFileUpload`)

The component holds `isUploading : Bool` and `uploadStatus : String`.
`onFileUpload` sets them to `(true, 'Uploading to secure server...')` and
calls `uploadMedia`; on success it sets `'Finalizing AI initialization...'`
and schedules `window.location.reload()` after 2000 ms; on failure it sets
`'Error during upload.'` and `isUploading` back to false.  The SELECT FILE
button carries `disabled={isUploading}`, so the file dialog — and hence a
new upload — cannot be triggered while one is in flight. -/

/-- CamSettings component state. -/
structure CamState where
  isUploading : Bool
  uploadStatus : String
deriving DecidableEq, Repr

/-- Fresh CamSettings state (`useState('')`, `useState(false)`). -/
def initCam : CamState := ⟨false, ""⟩

/-- Externally observable effects of the upload interaction. -/
inductive CamEv
  | uploadRequest
  | reloadAfter (ms : Nat)
deriving DecidableEq, Repr

/-- The `uploadStatus` strings written by `onFileUpload`. -/
def uploadingMsg : String := "Uploading to secure server..."

/-- Status text after the server acknowledged the upload. -/
def finalizingMsg : String := "Finalizing AI initialization..."

/-- Status text on upload failure. -/
def errorMsg : String := "Error during upload."

/-- The UploadTask status of the data model, read off the component state:
in flight it is uploading or finalizing depending on the status text,
otherwise error when the failure text is displayed, else idle. -/
inductive UploadPhase
  | idle
  | uploading
  | finalizing
  | error
deriving DecidableEq, Repr

/-- Map CamSettings state to the UploadTask status. -/
def phase (s : CamState) : UploadPhase :=
  if s.isUploading then
    if s.uploadStatus = finalizingMsg then UploadPhase.finalizing else UploadPhase.uploading
  else if s.uploadStatus = errorMsg then UploadPhase.error
  else UploadPhase.idle

/-- Start-upload intent: clicking SELECT FILE and choosing a file.  The
button is `disabled={isUploading}`, so while an upload is in flight the
dialog never opens and nothing happens; with no file chosen `onFileUpload`
returns early; otherwise the synchronous prefix of `onFileUpload` runs and
the `uploadMedia` request goes out. -/
def startUploadIntent (s : CamState) (fileChosen : Bool) : CamState × List CamEv :=
  if s.isUploading then (s, [])
  else if fileChosen then (⟨true, uploadingMsg⟩, [CamEv.uploadRequest])
  else (s, [])

/-- Continuation of `onFileUpload` when the `uploadMedia` promise settles:
success keeps `isUploading`, shows the finalizing text and schedules the
reload after the fixed 2000 ms settle delay; failure shows the error text
and re-enables the button. -/
def uploadResolved (s : CamState) (success : Bool) : CamState × List CamEv :=
  if success then
    ({ s with uploadStatus := finalizingMsg }, [CamEv.reloadAfter 2000])
  else
    (⟨false, errorMsg⟩, [])

/-- `window.location.reload()`: the component remounts with fresh state. -/
def reloadCam : CamState := initCam

/-- State while the upload request is in flight. -/
def camUploading : CamState := ⟨true, uploadingMsg⟩

/-- State after the server acknowledged, waiting out the settle delay. -/
def camFinalizing : CamState := ⟨true, finalizingMsg⟩

/-- State after a failed upload: error text shown, button enabled again. -/
def camError : CamState := ⟨false, errorMsg⟩

/-! ### Evidence review (ViolationArchive: `selectedVideo`, the modal) -/

/-- A violation record of the archive listing (`/violations` response
items, fields `id`, `type`, `time`, `filename`). -/
structure ArchViolation where
  id : Nat
  vtype : String
  time : String
  filename : String
deriving DecidableEq, Repr

/-- ViolationArchive component state. -/
structure ArchiveState where
  violations : List ArchViolation
  selectedVideo : Option ArchViolation
  loading : Bool
deriving DecidableEq, Repr

/-- Review Evidence button: `setSelectedVideo(v)`. -/
def openEvidence (s : ArchiveState) (v : ArchViolation) : ArchiveState :=
  { s with selectedVideo := some v }

/-- Modal close button: `setSelectedVideo(null)`. -/
def closeEvidence (s : ArchiveState) : ArchiveState :=
  { s with selectedVideo := none }

/-- The modal (and its `<video>` element) renders iff `selectedVideo` is
non-null (`{selectedVideo && ...}`). -/
def modalRendered (s : ArchiveState) : Bool :=
  s.selectedVideo.isSome

/-- api.js `getViolationVideoUrl`. -/
def violationVideoUrl (filename : String) : String :=
  "http://localhost:8005/video/violation/" ++ filename

/-- The `src` of the modal's video element, when the modal is open. -/
def videoSrc (s : ArchiveState) : Option String :=
  s.selectedVideo.map (fun v => violationVideoUrl v.filename)

/-! ### Credential ordering (App.jsx auth effect, api.js `setAuthToken`)

The auth callback runs `setAuthToken(token)` strictly before
`setUser(currentUser)` in one synchronous block, and the polling effect —
keyed to `user` — installs the interval only once a user is present;
`fetchStats` then sends the installed default header.  The model logs the
primitive events in program order and fetches fire only with a user set. -/

/-- Events logged by the session/polling machinery, in program order. -/
inductive SysEv
  | tokenInstalled
  | userReady
  | tokenCleared
  | userGone
  | statsFetched
deriving DecidableEq, Repr

/-- Process state: the installed api token, whether `user` is set, and the
event log so far. -/
structure SysWorld where
  token : Option String
  userPresent : Bool
  log : List SysEv
deriving DecidableEq, Repr

/-- External stimuli: an auth notification with or without a principal, and
an interval tick of the polling effect. -/
inductive SysAct
  | login (tok : String)
  | logout
  | tick
deriving DecidableEq, Repr

/-- One stimulus.  A login notification installs the token and then sets
the user (the source order inside the callback); a logout clears both; a
tick issues a stats fetch only while a user is present — with no user the
polling effect returned early and no interval exists. -/
def sysStep (w : SysWorld) (a : SysAct) : SysWorld :=
  match a with
  | .login tok =>
      { token := some tok, userPresent := true,
        log := w.log ++ [SysEv.tokenInstalled, SysEv.userReady] }
  | .logout =>
      { token := none, userPresent := false,
        log := w.log ++ [SysEv.tokenCleared, SysEv.userGone] }
  | .tick =>
      if w.userPresent then { w with log := w.log ++ [SysEv.statsFetched] } else w

/-- Run the machine over a stimulus sequence. -/
def sysRun (w : SysWorld) (acts : List SysAct) : SysWorld :=
  acts.foldl sysStep w

/-- Process start: no token, no user, empty log. -/
def sysInit : SysWorld := ⟨none, false, []⟩

/-- A log is credential-ordered when every stats fetch is preceded by a
token installation. -/
@[reducible] def GoodLog (l : List SysEv) : Prop :=
  ∀ i : Nat, l[i]? = some SysEv.statsFetched →
    ∃ j, j < i ∧ l[j]? = some SysEv.tokenInstalled

/-- Machine invariant: whenever a user is present a token installation is
already on the log, and the log is credential-ordered. -/
@[reducible] def SysInv (w : SysWorld) : Prop :=
  (w.userPresent = true →
    ∃ j, j < w.log.length ∧ w.log[j]? = some SysEv.tokenInstalled)
  ∧ GoodLog w.log

/-! ### Live feed rendering (LiveMonitor: `slice().reverse()`)

`stats.recent_violations.slice().reverse().map(...)`: `slice()` allocates a
copy and `reverse()` mutates that copy in place.  JavaScript arrays are
heap references, so the model carries an explicit store of arrays; the
claim is a frame property — the snapshot's own array is untouched. -/

/-- A store of JavaScript arrays of recent violations: `size` many live
references `0, …, size-1`. -/
structure ArrayStore where
  size : Nat
  heap : Nat → List RecentViolation

/-- Dereference an array. -/
def readRef (st : ArrayStore) (r : Nat) : List RecentViolation :=
  st.heap r

/-- Allocate a fresh array holding `a`, returning the new store and the
fresh reference. -/
def allocRef (st : ArrayStore) (a : List RecentViolation) : ArrayStore × Nat :=
  (⟨st.size + 1, fun i => if i = st.size then a else st.heap i⟩, st.size)

/-- Overwrite the array behind a reference. -/
def writeRef (st : ArrayStore) (r : Nat) (a : List RecentViolation) : ArrayStore :=
  { st with heap := fun i => if i = r then a else st.heap i }

/-- `xs.slice()`: allocate a copy. -/
def jsSlice (st : ArrayStore) (r : Nat) : ArrayStore × Nat :=
  allocRef st (readRef st r)

/-- `xs.reverse()`: reverse in place. -/
def jsReverseInPlace (st : ArrayStore) (r : Nat) : ArrayStore :=
  writeRef st r ((readRef st r).reverse)

/-- The LiveMonitor feed render:
`stats.recent_violations.slice().reverse()` — slice to a fresh copy,
reverse the copy in place, display the copy's contents. -/
def renderFeed (st : ArrayStore) (r : Nat) : ArrayStore × List RecentViolation :=
  let copied := jsSlice st r
  let st2 := jsReverseInPlace copied.1 copied.2
  (st2, readRef st2 copied.2)

/-- A one-array store holding a two-entry feed, most-recent-last. -/
def demoStore : ArrayStore :=
  ⟨1, fun i => if i = 0 then [rvDemo, ⟨"wrong_way", 7, "2024-01-01_12:00:05"⟩] else []⟩

end VMS

namespace VMS

/-- `getLastD` of a list extended on the right is the new element. -/
theorem getLastD_append_single {α : Type} (l : List α) (a d : α) :
    (l ++ [a]).getLastD d = a := by
  induction l with
  | nil => rfl
  | cons x xs ih =>
      cases xs with
      | nil => rfl
      | cons y ys => simpa using ih

/-- `pollStep` preserves "current stats = last applied response". -/
theorem pollStep_stats_lastD (c : Stats) (s : PollState) (e : PollEv)
    (h : s.stats = s.applied.getLastD c) :
    (pollStep s e).stats = (pollStep s e).applied.getLastD c := by
  cases e with
  | tick =>
      by_cases ha : s.active <;> simp [pollStep, ha, h]
  | teardown => simpa [pollStep] using h
  | resolve rid outcome =>
      by_cases hin : rid ∈ s.inflight
      · cases outcome with
        | ok d => simp [pollStep, hin, getLastD_append_single]
        | err => simpa [pollStep, hin] using h
      · simpa [pollStep, hin] using h

/-- `runPoll` preserves "current stats = last applied response". -/
theorem runPoll_stats_lastD (c : Stats) (tr : List PollEv) :
    ∀ s : PollState, s.stats = s.applied.getLastD c →
      (runPoll s tr).stats = (runPoll s tr).applied.getLastD c := by
  induction tr with
  | nil => intro s h; simpa [runPoll] using h
  | cons e es ih =>
      intro s h
      have h1 := pollStep_stats_lastD c s e h
      simpa [runPoll] using ih (pollStep s e) h1

/-- C1 counterexample: after the admin opens settings and an operator
re-logs-in, the role is operator but `activeTab` is still `settings`, which
is outside `visibleViews operator`; the settings view is still rendered and
no reset to the default permitted view (`live`, the head of the visible
list) takes place. -/
theorem role_change_keeps_stale_tab_C1_cex :
    cexS2.activeTab = ViewId.settings
    ∧ cexS2.activeTab ∈ visibleViews cexS2.role
    ∧ cexS3.role = Role.operator
    ∧ cexS3.activeTab = ViewId.settings
    ∧ cexS3.activeTab ∉ visibleViews cexS3.role
    ∧ renderedView cexS3 = some ViewId.settings
    ∧ (visibleViews cexS3.role).head? = some ViewId.live := by
  decide

/-- C1 amended: a role transition (any `onAuthStateChanged` notification)
leaves `activeTab` unchanged — the router performs no membership check and
no fallback reset, so after a role downgrade the active view may lie outside
the visible set and is still rendered. -/
theorem role_change_tab_unchanged_C1 :
    ∀ (s : AppState) (p : Option Principal),
      (authStateChanged s p).activeTab = s.activeTab := by
  intro s p
  cases p <;> rfl

/-- C4: role derivation is the deterministic admin-marker rule, and it feeds
navigation as the scenarios state: `admin@co.com` is admin (settings
visible), `op@co.com` is operator (settings absent, selecting it a no-op);
the marker test is case-insensitive and a missing email yields operator. -/
theorem role_policy_C4 :
    deriveRole (some "admin@co.com") = Role.admin
    ∧ deriveRole (some "op@co.com") = Role.operator
    ∧ deriveRole (some "Admin@Co.Com") = Role.admin
    ∧ deriveRole none = Role.operator
    ∧ (authStateChanged initApp (some adminPrin)).role = Role.admin
    ∧ (authStateChanged initApp (some opPrin)).role = Role.operator
    ∧ ViewId.settings ∈ visibleViews Role.admin
    ∧ ViewId.settings ∉ visibleViews Role.operator
    ∧ selectTab (authStateChanged initApp (some opPrin)) ViewId.settings
        = authStateChanged initApp (some opPrin)
    ∧ (selectTab (authStateChanged initApp (some opPrin)) ViewId.settings).activeTab
        = ViewId.live := by
  decide

/-- C2 counterexample: one fetch is issued, the loop is torn down with that
fetch in flight, and the late response still runs `setStats` — after
teardown the applied log grows from empty to one entry and the stats state
becomes the late response. -/
theorem inflight_applied_after_teardown_C2_cex :
    pollMid.active = false
    ∧ pollMid.applied = []
    ∧ pollMid.inflight = [0]
    ∧ (runPoll pollInit
        [PollEv.tick, PollEv.teardown, PollEv.resolve 0 (FetchOutcome.ok demoStats)]).stats
        = demoStats
    ∧ (runPoll pollInit
        [PollEv.tick, PollEv.teardown, PollEv.resolve 0 (FetchOutcome.ok demoStats)]).applied
        = [demoStats]
    ∧ demoStats ≠ pollInit.stats := by
  decide

/-- C2 amended: after teardown no further fetch is ever scheduled (a tick is
a no-op once the interval is cleared), but a response to a fetch already in
flight at teardown is still applied to the state. -/
theorem teardown_stops_ticks_not_inflight_C2 :
    ∀ (s : PollState) (rid : Nat) (d : Stats),
      s.active = false → s.inflight.contains rid = true →
        (pollStep s PollEv.tick = s
         ∧ (pollStep s (PollEv.resolve rid (FetchOutcome.ok d))).stats = d) := by
  intro s rid d ha hin
  have hm : rid ∈ s.inflight := by simpa using hin
  constructor
  · simp [pollStep, ha]
  · simp [pollStep, hm]

/-- Witness for the C2 amended theorem at the concrete torn-down state. -/
theorem teardown_stops_ticks_not_inflight_C2_witness :
    pollStep pollMid PollEv.tick = pollMid
    ∧ (pollStep pollMid (PollEv.resolve 0 (FetchOutcome.ok demoStats))).stats = demoStats :=
  teardown_stops_ticks_not_inflight_C2 pollMid 0 demoStats (by decide) (by decide)

/-- C5: while the loop is active, a failed fetch leaves it active, leaves
the stats state and the applied log unchanged, logs the error, does not
prevent the next tick from issuing a fetch, and the cadence constant stays
the fixed 1000 ms. -/
theorem fetch_error_keeps_polling_C5 :
    ∀ (s : PollState) (rid : Nat),
      s.active = true → s.inflight.contains rid = true →
        ((pollStep s (PollEv.resolve rid FetchOutcome.err)).active = true
         ∧ (pollStep s (PollEv.resolve rid FetchOutcome.err)).stats = s.stats
         ∧ (pollStep s (PollEv.resolve rid FetchOutcome.err)).applied = s.applied
         ∧ (pollStep s (PollEv.resolve rid FetchOutcome.err)).errorsLogged
             = s.errorsLogged + 1
         ∧ (pollStep (pollStep s (PollEv.resolve rid FetchOutcome.err)) PollEv.tick).inflight
             = (pollStep s (PollEv.resolve rid FetchOutcome.err)).inflight
               ++ [(pollStep s (PollEv.resolve rid FetchOutcome.err)).nextRid]
         ∧ pollIntervalMs = 1000) := by
  intro s rid ha hin
  have hm : rid ∈ s.inflight := by simpa using hin
  refine ⟨?_, ?_, ?_, ?_, ?_, rfl⟩ <;> simp [pollStep, ha, hm]

/-- Witness for C5 at the state with one fetch in flight. -/
theorem fetch_error_keeps_polling_C5_witness :
    ((pollStep (runPoll pollInit [PollEv.tick]) (PollEv.resolve 0 FetchOutcome.err)).active = true
     ∧ (pollStep (runPoll pollInit [PollEv.tick]) (PollEv.resolve 0 FetchOutcome.err)).stats
         = (runPoll pollInit [PollEv.tick]).stats
     ∧ (pollStep (runPoll pollInit [PollEv.tick]) (PollEv.resolve 0 FetchOutcome.err)).applied
         = (runPoll pollInit [PollEv.tick]).applied
     ∧ (pollStep (runPoll pollInit [PollEv.tick]) (PollEv.resolve 0 FetchOutcome.err)).errorsLogged
         = (runPoll pollInit [PollEv.tick]).errorsLogged + 1
     ∧ (pollStep (pollStep (runPoll pollInit [PollEv.tick]) (PollEv.resolve 0 FetchOutcome.err))
          PollEv.tick).inflight
         = (pollStep (runPoll pollInit [PollEv.tick]) (PollEv.resolve 0 FetchOutcome.err)).inflight
           ++ [(pollStep (runPoll pollInit [PollEv.tick]) (PollEv.resolve 0 FetchOutcome.err)).nextRid]
     ∧ pollIntervalMs = 1000) :=
  fetch_error_keeps_polling_C5 (runPoll pollInit [PollEv.tick]) 0 (by decide) (by decide)

/-- C6: over every event sequence the displayed stats equal the most
recently applied response (initial stats before any application), and each
successful application replaces the snapshot wholesale with the response,
with no dependence on the previous snapshot's fields. -/
theorem stats_last_applied_wholesale_C6 :
    (∀ tr : List PollEv,
      (runPoll pollInit tr).stats = (runPoll pollInit tr).applied.getLastD pollInit.stats)
    ∧ (∀ (s : PollState) (rid : Nat) (d : Stats),
        s.inflight.contains rid = true →
          (pollStep s (PollEv.resolve rid (FetchOutcome.ok d))).stats = d) := by
  constructor
  · intro tr
    exact runPoll_stats_lastD pollInit.stats tr pollInit rfl
  · intro s rid d hin
    have hm : rid ∈ s.inflight := by simpa using hin
    simp [pollStep, hm]

/-- Witness for C6 on a concrete trace and a concrete wholesale overwrite. -/
theorem stats_last_applied_wholesale_C6_witness :
    (runPoll pollInit [PollEv.tick, PollEv.resolve 0 (FetchOutcome.ok demoStats)]).stats
      = (runPoll pollInit [PollEv.tick, PollEv.resolve 0 (FetchOutcome.ok demoStats)]).applied.getLastD
          pollInit.stats
    ∧ (pollStep (runPoll pollInit [PollEv.tick])
         (PollEv.resolve 0 (FetchOutcome.ok demoStats))).stats = demoStats :=
  ⟨stats_last_applied_wholesale_C6.1 [PollEv.tick, PollEv.resolve 0 (FetchOutcome.ok demoStats)],
   stats_last_applied_wholesale_C6.2 (runPoll pollInit [PollEv.tick]) 0 demoStats (by decide)⟩

/-- C3 counterexample: the error state is reachable (one failed upload from
the fresh state), its status is error — not idle — and yet a start-upload
intent from it is accepted and issues a network request: the code only
rejects while `isUploading`, so "status ≠ idle ⇒ rejected" fails at the
error status. -/
theorem upload_retry_from_error_C3_cex :
    (uploadResolved (startUploadIntent initCam true).1 false).1 = camError
    ∧ phase camError = UploadPhase.error
    ∧ phase camError ≠ UploadPhase.idle
    ∧ startUploadIntent camError true = (camUploading, [CamEv.uploadRequest]) := by
  decide

/-- C3 amended: at most one upload is in flight — a start-upload intent
issued while the UploadTask is in flight (status uploading or finalizing,
exactly the states with `isUploading` set) is rejected without any state
change and without a network call; only from the not-in-flight statuses
(idle, and error as the designed retry) is an upload accepted. -/
theorem upload_reject_while_inflight_C3 :
    ∀ (s : CamState) (fileChosen : Bool),
      (phase s = UploadPhase.uploading ∨ phase s = UploadPhase.finalizing) →
        startUploadIntent s fileChosen = (s, []) := by
  intro s fileChosen hp
  have hup : s.isUploading = true := by
    cases hb : s.isUploading
    · exfalso
      by_cases hs : s.uploadStatus = errorMsg <;>
        rcases hp with h | h <;>
          simp [phase, hb, hs] at h
    · rfl
  simp [startUploadIntent, hup]

/-- Witness for the C3 amended theorem at the in-flight uploading state. -/
theorem upload_reject_while_inflight_C3_witness :
    startUploadIntent camUploading true = (camUploading, []) :=
  upload_reject_while_inflight_C3 camUploading true (by decide)

/-- C7: the UploadTask machine follows idle → uploading (file submitted,
request issued) → finalizing (acknowledged, reload scheduled after the
fixed 2000 ms settle delay) → idle (on reload), and on failure it moves to
error with the user-visible failure text while re-enabling the start
button, so a retry is accepted — it is never stuck. -/
theorem upload_machine_C7 :
    phase initCam = UploadPhase.idle
    ∧ startUploadIntent initCam true = (camUploading, [CamEv.uploadRequest])
    ∧ phase camUploading = UploadPhase.uploading
    ∧ uploadResolved camUploading true = (camFinalizing, [CamEv.reloadAfter 2000])
    ∧ phase camFinalizing = UploadPhase.finalizing
    ∧ reloadCam = initCam
    ∧ phase reloadCam = UploadPhase.idle
    ∧ uploadResolved camUploading false = (camError, [])
    ∧ phase camError = UploadPhase.error
    ∧ camError.uploadStatus = errorMsg
    ∧ camError.isUploading = false
    ∧ startUploadIntent camError true = (camUploading, [CamEv.uploadRequest]) := by
  decide

/-- C8: `selectedVideo` holds at most one violation: opening B over A ends
with exactly B selected (no stacking), closing sets it to null, after which
the modal and its video element are gone (resource released); while open,
the video element points at the selected violation's evidence URL. -/
theorem evidence_single_C8 :
    ∀ (s : ArchiveState) (a b : ArchViolation),
      (openEvidence (openEvidence s a) b).selectedVideo = some b
      ∧ (closeEvidence (openEvidence s a)).selectedVideo = none
      ∧ modalRendered (closeEvidence (openEvidence s a)) = false
      ∧ videoSrc (closeEvidence (openEvidence s a)) = none
      ∧ videoSrc (openEvidence s a) = some (violationVideoUrl a.filename)
      ∧ modalRendered (openEvidence s a) = true := by
  intro s a b
  refine ⟨rfl, rfl, rfl, rfl, rfl, rfl⟩

/-- A credential-ordered log stays credential-ordered after appending
events none of which is a stats fetch. -/
theorem goodLog_append_clean (l m : List SysEv)
    (hm : ∀ e ∈ m, e ≠ SysEv.statsFetched) (h : GoodLog l) :
    GoodLog (l ++ m) := by
  intro i hi
  by_cases hlt : i < l.length
  · rw [List.getElem?_append_left hlt] at hi
    obtain ⟨j, hj, hg⟩ := h i hi
    exact ⟨j, hj, by rw [List.getElem?_append_left (hj.trans hlt)]; exact hg⟩
  · exfalso
    have hge : l.length ≤ i := Nat.le_of_not_lt hlt
    rw [List.getElem?_append_right hge] at hi
    obtain ⟨hlt2, heq⟩ := List.getElem?_eq_some_iff.mp hi
    exact hm _ (heq ▸ List.getElem_mem hlt2) rfl

/-- Appending a stats fetch keeps the log credential-ordered provided a
token installation is already on it. -/
theorem goodLog_append_fetch (l : List SysEv) (h : GoodLog l)
    (htok : ∃ j, j < l.length ∧ l[j]? = some SysEv.tokenInstalled) :
    GoodLog (l ++ [SysEv.statsFetched]) := by
  intro i hi
  by_cases hlt : i < l.length
  · rw [List.getElem?_append_left hlt] at hi
    obtain ⟨j, hj, hg⟩ := h i hi
    exact ⟨j, hj, by rw [List.getElem?_append_left (hj.trans hlt)]; exact hg⟩
  · have hge : l.length ≤ i := Nat.le_of_not_lt hlt
    obtain ⟨j, hj, hg⟩ := htok
    refine ⟨j, hj.trans_le hge, ?_⟩
    rw [List.getElem?_append_left hj]
    exact hg

/-- `sysStep` preserves the credential-ordering invariant. -/
theorem sysStep_inv (w : SysWorld) (a : SysAct) (h : SysInv w) :
    SysInv (sysStep w a) := by
  obtain ⟨htok, hlog⟩ := h
  cases a with
  | login tok =>
      constructor
      · intro _
        refine ⟨w.log.length, by simp [sysStep], ?_⟩
        rw [show (sysStep w (SysAct.login tok)).log
              = w.log ++ [SysEv.tokenInstalled, SysEv.userReady] from rfl]
        rw [List.getElem?_append_right (Nat.le_refl _)]
        simp
      · show GoodLog (w.log ++ [SysEv.tokenInstalled, SysEv.userReady])
        refine goodLog_append_clean _ _ ?_ hlog
        intro e he
        simp only [List.mem_cons, List.mem_singleton] at he
        rcases he with rfl | rfl | he
        · decide
        · decide
        · exact absurd he (List.not_mem_nil e)
  | logout =>
      constructor
      · intro hfalse
        exact absurd hfalse (by simp [sysStep])
      · show GoodLog (w.log ++ [SysEv.tokenCleared, SysEv.userGone])
        refine goodLog_append_clean _ _ ?_ hlog
        intro e he
        simp only [List.mem_cons, List.mem_singleton] at he
        rcases he with rfl | rfl | he
        · decide
        · decide
        · exact absurd he (List.not_mem_nil e)
  | tick =>
      by_cases hu : w.userPresent = true
      · have hstep : sysStep w SysAct.tick
            = { w with log := w.log ++ [SysEv.statsFetched] } := by
          simp [sysStep, hu]
        rw [hstep]
        constructor
        · intro _
          obtain ⟨j, hj, hg⟩ := htok hu
          refine ⟨j, by simpa using hj.trans_le (Nat.le_succ_of_le (Nat.le_refl _)), ?_⟩
          rw [List.getElem?_append_left hj]
          exact hg
        · exact goodLog_append_fetch w.log hlog (htok hu)
      · have hstep : sysStep w SysAct.tick = w := by
          simp [sysStep, hu]
        rw [hstep]
        exact ⟨htok, hlog⟩

/-- The invariant holds along every run from process start. -/
theorem sysRun_inv (acts : List SysAct) :
    ∀ w : SysWorld, SysInv w → SysInv (sysRun w acts) := by
  induction acts with
  | nil => intro w h; simpa [sysRun] using h
  | cons a as ih =>
      intro w h
      have h1 := sysStep_inv w a h
      simpa [sysRun] using ih (sysStep w a) h1

/-- The invariant holds at process start. -/
theorem sysInv_init : SysInv sysInit := by
  constructor
  · intro hfalse
    exact absurd hfalse (by decide)
  · intro i hi
    simp [sysInit] at hi

/-- C9: over every stimulus sequence from process start, every stats fetch
in the event log is preceded by a bearer-credential installation — in
particular the credential install happens-before the first poll fetch of a
session. -/
theorem token_install_before_fetch_C9 :
    ∀ (acts : List SysAct) (i : Nat),
      (sysRun sysInit acts).log[i]? = some SysEv.statsFetched →
      ∃ j, j < i ∧ (sysRun sysInit acts).log[j]? = some SysEv.tokenInstalled := by
  intro acts i hi
  exact (sysRun_inv acts sysInit sysInv_init).2 i hi

/-- Witness for C9 on a concrete login-then-tick run whose third logged
event is the first poll fetch. -/
theorem token_install_before_fetch_C9_witness :
    ∃ j, j < 2
      ∧ (sysRun sysInit [SysAct.login "tok", SysAct.tick]).log[j]?
          = some SysEv.tokenInstalled :=
  token_install_before_fetch_C9 [SysAct.login "tok", SysAct.tick] 2 (by decide)

/-- C10: rendering the live feed displays the reversed copy of the
recent-violation array (most-recent-first: the displayed head is the
snapshot's last entry) while the snapshot's own array is unchanged in the
store — `slice()` copies before `reverse()` mutates. -/
theorem live_feed_copy_frame_C10 :
    ∀ (st : ArrayStore) (r : Nat), r < st.size →
      ((renderFeed st r).2 = (readRef st r).reverse
       ∧ readRef (renderFeed st r).1 r = readRef st r
       ∧ ((renderFeed st r).2).head? = (readRef st r).getLast?) := by
  intro st r hr
  have hne : r ≠ st.size := Nat.ne_of_lt hr
  refine ⟨?_, ?_, ?_⟩
  · simp [renderFeed, jsSlice, allocRef, jsReverseInPlace, writeRef, readRef]
  · simp [renderFeed, jsSlice, allocRef, jsReverseInPlace, writeRef, readRef, hne]
  · simp [renderFeed, jsSlice, allocRef, jsReverseInPlace, writeRef, readRef,
      List.head?_reverse]

/-- Witness for C10 on a concrete store with a two-entry feed. -/
theorem live_feed_copy_frame_C10_witness :
    ((renderFeed demoStore 0).2 = (readRef demoStore 0).reverse
     ∧ readRef (renderFeed demoStore 0).1 0 = readRef demoStore 0
     ∧ ((renderFeed demoStore 0).2).head? = (readRef demoStore 0).getLast?) :=
  live_feed_copy_frame_C10 demoStore 0 (by decide)

end VMS
